import Mathlib

/-!
Shallow embedding of `nmc_met_graphics/magics/dynamics.py`.

The module assembles declarative plotting directives (field wrappers, style
blocks, legend, title, output target) and issues a single variadic render
call to the Magics engine.  The embedding records each engine object as a
constructor carrying exactly the arguments the Python code passes, and each
public draw function returns the render calls it issues together with its
return value.  Grid values are kept polymorphic in a scalar type `α`; the
elementwise square root applied by `np.sqrt` is passed in as a function, so
that the numerical claims can be settled over `ℝ` while the structural
claims evaluate over `ℚ`.
-/

/-- A 2D numeric grid, row by row (numpy 2D array `[nlat, nlon]`). -/
abbrev Grid (α : Type) := List (List α)

/-- Elementwise unary operation on a grid (numpy broadcasting of `np.sqrt`). -/
def gridMap {α : Type} (f : α → α) (g : Grid α) : Grid α :=
  g.map (List.map f)

/-- Elementwise binary operation on two grids of equal shape
(numpy `u*u + v*v` on same-shape arrays). -/
def gridMap2 {α : Type} (f : α → α → α) (g h : Grid α) : Grid α :=
  List.zipWith (List.zipWith f) g h

/-- A keyword-argument value handed to a Magics macro: a string, a number,
a list of numbers or a list of strings.  The Python floats appearing in the
module are all decimal literals, represented exactly in `ℚ`. -/
inductive MVal where
  | s (v : String)
  | n (v : ℚ)
  | ns (v : List ℚ)
  | ss (v : List String)

/-- The objects the module hands to the render call.

`minput2dVector` and `minput2d` model `util.minput_2d_vector` and
`util.minput_2d` (modelled from the spec: "a field-construction utility that
wraps a raw 2D scalar or vector grid plus coordinate axes and optional
metadata (name, units) into the plotting engine's native field
representation, with an optional decimation stride for vector fields"; the
utility module is not among the staged sources, so it is an uninterpreted
wrapper recording its arguments).  `getMmap` and `getMcoast` likewise model
the style factories `map_set.get_mmap` / `map_set.get_mcoast` ("a
map/coastline style-factory that returns named, pre-configured projection
and coastline style objects, optionally parameterized by a region bounding
box").  The remaining constructors record the keyword arguments passed to
the engine macros `mcont`, `mwind`, `mlegend`, `mtext` and `output`. -/
inductive MObj (α : Type) where
  | minput2dVector (u v : Grid α) (lon lat : List α) (skip : ℕ)
  | minput2d (data : Grid α) (lon lat : List α) (attrs : List (String × String))
  | getMmap (name : String) (map_region : Option (List ℚ)) (subpage_frame_thickness : ℚ)
  | getMcoast (name : String)
  | mcont (kwargs : List (String × MVal))
  | mwind (kwargs : List (String × MVal))
  | mlegend (kwargs : List (String × MVal))
  | mtext (text_lines : List String) (kwargs : List (String × MVal))
  | output (output_formats : List String) (output_name_first_page_number : String)
      (output_width : ℚ) (output_name : String)

/-- What one call to a draw function does: `ret` is the function's return
value (`some` of the figure handle — identified with the argument list of
the render call that produced it — or `none`), and `calls` lists the
argument lists of the `magics.plot` invocations it issued. -/
structure DrawOutput (α : Type) where
  ret : Option (List (MObj α))
  calls : List (List (MObj α))

/-- A Python datetime, to the resolution the module formats. -/
structure PyDateTime where
  year : ℕ
  month : ℕ
  day : ℕ
  hour : ℕ
  minute : ℕ

/-- Decimal rendering zero-padded to two digits (strftime `%m`, `%d`, `%H`, `%M`). -/
def pad2 (n : ℕ) : String :=
  if n < 10 then "0" ++ toString n else toString n

/-- Decimal rendering zero-padded to four digits (strftime `%Y`). -/
def pad4 (n : ℕ) : String :=
  if n < 10 then "000" ++ toString n
  else if n < 100 then "00" ++ toString n
  else if n < 1000 then "0" ++ toString n
  else toString n

/-- Modelled from the spec: Python's `datetime.strftime` at the one format
string the module uses, `"%Y/%m/%d %H:%M(UTC)"` ("timestamp, if present, is
formatted as `YYYY/MM/DD HH:MM(UTC)`"). -/
def strftimeYmdHM_UTC (d : PyDateTime) : String :=
  pad4 d.year ++ "/" ++ pad2 d.month ++ "/" ++ pad2 d.day ++ " "
    ++ pad2 d.hour ++ ":" ++ pad2 d.minute ++ "(UTC)"

/-- The module-level constant `out_png_width = 1200`. -/
def out_png_width : ℚ := 1200

/-- Embedding of `draw_wind_upper` (dynamics.py lines 21-160): 200hPa wind
speed shading, wind arrows, optional height overlay. -/
def drawWindUpper {α : Type} [Mul α] [Add α] (sqrt : α → α)
    (uwind vwind : Grid α) (lon lat : List α)
    (gh : Option (Grid α)) (skip_vector : Option ℕ)
    (map_region : Option (List ℚ)) (head_info : Option String)
    (date_obj : Option PyDateTime) (outfile : Option String) : DrawOutput α :=
  let skip : ℕ := match skip_vector with
    | none => max (⌈(lon.length : ℚ) / 70⌉₊) (⌈(lat.length : ℚ) / 35⌉₊)
    | some s => s
  let wind_field : MObj α := .minput2dVector uwind vwind lon lat skip
  let wspeed_field : MObj α :=
    .minput2d (gridMap sqrt (gridMap2 (fun a b => a * a + b * b) uwind vwind)) lon lat
      [("long_name", "Wind Speed"), ("units", "m/s")]
  let china_map : MObj α := match map_region with
    | none => .getMmap "CHINA_CYLINDRICAL" none 5
    | some region => .getMmap "CHINA_REGION_CYLINDRICAL" (some region) 5
  let coastlines : MObj α := .getMcoast "COAST_FILL"
  let china_coastlines : MObj α := .getMcoast "PROVINCE"
  let gh_contour : MObj α := .mcont [
    ("legend", .s "off"),
    ("contour_level_selection_type", .s "interval"),
    ("contour_interval", .n 50),
    ("contour_line_colour", .s "black"),
    ("contour_line_thickness", .n 1),
    ("contour_label", .s "on"),
    ("contour_label_height", .n 0.5),
    ("contour_highlight_colour", .s "black"),
    ("contour_highlight_thickness", .n 2)]
  let wspeed_contour : MObj α := .mcont [
    ("legend", .s "on"),
    ("contour_level_selection_type", .s "level_list"),
    ("contour_level_list", .ns [30, 40, 50, 60, 70, 80, 90, 100]),
    ("contour_shade", .s "on"),
    ("contour_shade_max_level_colour", .s "evergreen"),
    ("contour_shade_min_level_colour", .s "yellow"),
    ("contour_shade_method", .s "area_fill"),
    ("contour_reference_level", .n 0),
    ("contour_highlight", .s "off"),
    ("contour_hilo", .s "hi"),
    ("contour_hilo_format", .s "(F3.0)"),
    ("contour_hilo_height", .n 0.6),
    ("contour_hilo_type", .s "number"),
    ("contour_hilo_window_size", .n 10),
    ("contour_label", .s "off")]
  let wind_vector : MObj α := .mwind [
    ("legend", .s "on"),
    ("wind_field_type", .s "arrows"),
    ("wind_arrow_head_shape", .n 1),
    ("wind_arrow_thickness", .n 0.5),
    ("wind_arrow_unit_velocity", .n 50),
    ("wind_arrow_colour", .s "evergreen")]
  let legend : MObj α := .mlegend [
    ("legend", .s "on"),
    ("legend_text_colour", .s "black"),
    ("legend_box_mode", .s "legend_box_mode"),
    ("legend_automatic_position", .s "right"),
    ("legend_border", .s "off"),
    ("legend_border_colour", .s "black"),
    ("legend_box_blanking", .s "on"),
    ("legend_display_type", .s "continuous"),
    ("legend_title", .s "on"),
    ("legend_title_text", .s "Wind Speed"),
    ("legend_text_font_size", .s "0.5")]
  let text_lines : List String :=
    (match head_info with
      | some h => ["<font size='1'>" ++ h ++ "</font>"]
      | none => ["<font size='1'>200hPa Wind[m/s] and Height[gpm]</font>"]) ++
    (match date_obj with
      | some d => ["<font size='0.8' colour='red'>" ++ strftimeYmdHM_UTC d ++ "</font>"]
      | none => [])
  let title : MObj α := .mtext text_lines [
    ("text_justification", .s "left"),
    ("text_font_size", .n 0.6),
    ("text_mode", .s "title"),
    ("text_colour", .s "charcoal")]
  match outfile with
  | some f =>
    let out : MObj α := .output ["png"] "off" out_png_width f
    match gh with
    | some g =>
      let gh_feild : MObj α := .minput2d g lon lat [("long_name", "height"), ("units", "gpm")]
      ⟨none, [[out, china_map, coastlines, wspeed_field, wspeed_contour,
               wind_field, wind_vector, gh_feild, gh_contour, legend, title, china_coastlines]]⟩
    | none =>
      ⟨none, [[out, china_map, coastlines, wspeed_field, wspeed_contour,
               wind_field, wind_vector, legend, title, china_coastlines]]⟩
  | none =>
    match gh with
    | some g =>
      let gh_feild : MObj α := .minput2d g lon lat [("long_name", "height"), ("units", "gpm")]
      let args := [china_map, coastlines, wspeed_field, wspeed_contour,
                   wind_field, wind_vector, gh_feild, gh_contour, legend, title, china_coastlines]
      ⟨some args, [args]⟩
    | none =>
      let args := [china_map, coastlines, wspeed_field, wspeed_contour,
                   wind_field, wind_vector, legend, title, china_coastlines]
      ⟨some args, [args]⟩

/-- Embedding of `draw_wind_high` (dynamics.py lines 163-309): 850hPa wind
speed shading, wind flags, optional 500hPa height overlay. -/
def drawWindHigh {α : Type} [Mul α] [Add α] (sqrt : α → α)
    (uwind vwind : Grid α) (lon lat : List α)
    (gh : Option (Grid α)) (skip_vector : Option ℕ)
    (map_region : Option (List ℚ)) (head_info : Option String)
    (date_obj : Option PyDateTime) (outfile : Option String) : DrawOutput α :=
  let skip : ℕ := match skip_vector with
    | none => max (⌈(lon.length : ℚ) / 70⌉₊) (⌈(lat.length : ℚ) / 35⌉₊)
    | some s => s
  let wind_field : MObj α := .minput2dVector uwind vwind lon lat skip
  let wspeed_field : MObj α :=
    .minput2d (gridMap sqrt (gridMap2 (fun a b => a * a + b * b) uwind vwind)) lon lat
      [("long_name", "Wind Speed"), ("units", "m/s")]
  let china_map : MObj α := match map_region with
    | none => .getMmap "CHINA_CYLINDRICAL" none 5
    | some region => .getMmap "CHINA_REGION_CYLINDRICAL" (some region) 5
  let coastlines : MObj α := .getMcoast "COAST_FILL"
  let china_coastlines : MObj α := .getMcoast "PROVINCE"
  let gh_contour : MObj α := .mcont [
    ("legend", .s "off"),
    ("contour_level_selection_type", .s "interval"),
    ("contour_interval", .n 20),
    ("contour_reference_level", .n 5880),
    ("contour_line_colour", .s "black"),
    ("contour_line_thickness", .n 1.5),
    ("contour_label", .s "on"),
    ("contour_label_height", .n 0.5),
    ("contour_highlight_colour", .s "black"),
    ("contour_highlight_thickness", .n 3)]
  let wspeed_contour : MObj α := .mcont [
    ("legend", .s "on"),
    ("contour_level_selection_type", .s "interval"),
    ("contour_shade_max_level", .n 44),
    ("contour_shade_min_level", .n 8),
    ("contour_interval", .n 4),
    ("contour_shade", .s "on"),
    ("contour", .s "off"),
    ("contour_shade_method", .s "area_fill"),
    ("contour_shade_colour_method", .s "palette"),
    ("contour_shade_palette_name", .s "eccharts_rainbow_blue_purple_9"),
    ("contour_reference_level", .n 8),
    ("contour_highlight", .s "off"),
    ("contour_hilo", .s "hi"),
    ("contour_hilo_format", .s "(F3.0)"),
    ("contour_hilo_height", .n 0.6),
    ("contour_hilo_type", .s "number"),
    ("contour_hilo_window_size", .n 10),
    ("contour_label", .s "off")]
  let wind_vector : MObj α := .mwind [
    ("legend", .s "off"),
    ("wind_field_type", .s "flags"),
    ("wind_flag_length", .n 0.6),
    ("wind_thinning_factor", .n 2),
    ("wind_flag_style", .s "solid"),
    ("wind_flag_thickness", .n 1),
    ("wind_flag_origin_marker", .s "dot"),
    ("wind_flag_min_speed", .n 0.0),
    ("wind_flag_colour", .s "charcoal")]
  let legend : MObj α := .mlegend [
    ("legend", .s "on"),
    ("legend_text_colour", .s "black"),
    ("legend_box_mode", .s "legend_box_mode"),
    ("legend_automatic_position", .s "right"),
    ("legend_border", .s "off"),
    ("legend_border_colour", .s "black"),
    ("legend_box_blanking", .s "on"),
    ("legend_display_type", .s "continuous"),
    ("legend_title", .s "on"),
    ("legend_title_text", .s "Wind Speed"),
    ("legend_text_font_size", .s "0.5")]
  let text_lines : List String :=
    (match head_info with
      | some h => ["<font size='1'>" ++ h ++ "</font>"]
      | none => ["<font size='1'>850hPa Wind[m/s] and 500hPa Height[gpm]</font>"]) ++
    (match date_obj with
      | some d => ["<font size='0.8' colour='red'>" ++ strftimeYmdHM_UTC d ++ "</font>"]
      | none => [])
  let title : MObj α := .mtext text_lines [
    ("text_justification", .s "left"),
    ("text_font_size", .n 0.6),
    ("text_mode", .s "title"),
    ("text_colour", .s "charcoal")]
  match outfile with
  | some f =>
    let out : MObj α := .output ["png"] "off" out_png_width f
    match gh with
    | some g =>
      let gh_feild : MObj α := .minput2d g lon lat [("long_name", "height"), ("units", "gpm")]
      ⟨none, [[out, china_map, coastlines, wspeed_field, wspeed_contour,
               wind_field, wind_vector, gh_feild, gh_contour, legend, title, china_coastlines]]⟩
    | none =>
      ⟨none, [[out, china_map, coastlines, wspeed_field, wspeed_contour,
               wind_field, wind_vector, legend, title, china_coastlines]]⟩
  | none =>
    match gh with
    | some g =>
      let gh_feild : MObj α := .minput2d g lon lat [("long_name", "height"), ("units", "gpm")]
      let args := [china_map, coastlines, wspeed_field, wspeed_contour,
                   wind_field, wind_vector, gh_feild, gh_contour, legend, title, china_coastlines]
      ⟨some args, [args]⟩
    | none =>
      let args := [china_map, coastlines, wspeed_field, wspeed_contour,
                   wind_field, wind_vector, legend, title, china_coastlines]
      ⟨some args, [args]⟩

/-- Embedding of `draw_vort_high` (dynamics.py lines 312-459).  The `vort`
argument is accepted, as in the source, and appears nowhere in the body:
the source never reads it. -/
def drawVortHigh {α : Type} [Mul α] [Add α] (sqrt : α → α)
    (uwind vwind : Grid α) (vort : Grid α) (lon lat : List α)
    (gh : Option (Grid α)) (skip_vector : Option ℕ)
    (map_region : Option (List ℚ)) (head_info : Option String)
    (date_obj : Option PyDateTime) (outfile : Option String) : DrawOutput α :=
  let skip : ℕ := match skip_vector with
    | none => max (⌈(lon.length : ℚ) / 70⌉₊) (⌈(lat.length : ℚ) / 35⌉₊)
    | some s => s
  let wind_field : MObj α := .minput2dVector uwind vwind lon lat skip
  let wspeed_field : MObj α :=
    .minput2d (gridMap sqrt (gridMap2 (fun a b => a * a + b * b) uwind vwind)) lon lat
      [("long_name", "Wind Speed"), ("units", "m/s")]
  let china_map : MObj α := match map_region with
    | none => .getMmap "CHINA_CYLINDRICAL" none 5
    | some region => .getMmap "CHINA_REGION_CYLINDRICAL" (some region) 5
  let coastlines : MObj α := .getMcoast "COAST_FILL"
  let china_coastlines : MObj α := .getMcoast "PROVINCE"
  let gh_contour : MObj α := .mcont [
    ("legend", .s "off"),
    ("contour_level_selection_type", .s "interval"),
    ("contour_interval", .n 20),
    ("contour_reference_level", .n 5880),
    ("contour_line_colour", .s "black"),
    ("contour_line_thickness", .n 1.5),
    ("contour_label", .s "on"),
    ("contour_label_height", .n 0.5),
    ("contour_highlight_colour", .s "black"),
    ("contour_highlight_thickness", .n 3)]
  let wspeed_contour : MObj α := .mcont [
    ("legend", .s "on"),
    ("contour_level_selection_type", .s "interval"),
    ("contour_shade_max_level", .n 44),
    ("contour_shade_min_level", .n 8),
    ("contour_interval", .n 4),
    ("contour_shade", .s "on"),
    ("contour", .s "off"),
    ("contour_shade_method", .s "area_fill"),
    ("contour_shade_colour_method", .s "palette"),
    ("contour_shade_palette_name", .s "eccharts_rainbow_blue_purple_9"),
    ("contour_reference_level", .n 8),
    ("contour_highlight", .s "off"),
    ("contour_hilo", .s "hi"),
    ("contour_hilo_format", .s "(F3.0)"),
    ("contour_hilo_height", .n 0.6),
    ("contour_hilo_type", .s "number"),
    ("contour_hilo_window_size", .n 10),
    ("contour_label", .s "off")]
  let wind_vector : MObj α := .mwind [
    ("legend", .s "off"),
    ("wind_field_type", .s "flags"),
    ("wind_flag_length", .n 0.6),
    ("wind_thinning_factor", .n 2),
    ("wind_flag_style", .s "solid"),
    ("wind_flag_thickness", .n 1),
    ("wind_flag_origin_marker", .s "dot"),
    ("wind_flag_min_speed", .n 0.0),
    ("wind_flag_colour", .s "charcoal")]
  let legend : MObj α := .mlegend [
    ("legend", .s "on"),
    ("legend_text_colour", .s "black"),
    ("legend_box_mode", .s "legend_box_mode"),
    ("legend_automatic_position", .s "right"),
    ("legend_border", .s "off"),
    ("legend_border_colour", .s "black"),
    ("legend_box_blanking", .s "on"),
    ("legend_display_type", .s "continuous"),
    ("legend_title", .s "on"),
    ("legend_title_text", .s "Wind Speed"),
    ("legend_text_font_size", .s "0.5")]
  let text_lines : List String :=
    (match head_info with
      | some h => ["<font size='1'>" ++ h ++ "</font>"]
      | none => ["<font size='1'>850hPa Wind[m/s] and 500hPa Height[gpm]</font>"]) ++
    (match date_obj with
      | some d => ["<font size='0.8' colour='red'>" ++ strftimeYmdHM_UTC d ++ "</font>"]
      | none => [])
  let title : MObj α := .mtext text_lines [
    ("text_justification", .s "left"),
    ("text_font_size", .n 0.6),
    ("text_mode", .s "title"),
    ("text_colour", .s "charcoal")]
  match outfile with
  | some f =>
    let out : MObj α := .output ["png"] "off" out_png_width f
    match gh with
    | some g =>
      let gh_feild : MObj α := .minput2d g lon lat [("long_name", "height"), ("units", "gpm")]
      ⟨none, [[out, china_map, coastlines, wspeed_field, wspeed_contour,
               wind_field, wind_vector, gh_feild, gh_contour, legend, title, china_coastlines]]⟩
    | none =>
      ⟨none, [[out, china_map, coastlines, wspeed_field, wspeed_contour,
               wind_field, wind_vector, legend, title, china_coastlines]]⟩
  | none =>
    match gh with
    | some g =>
      let gh_feild : MObj α := .minput2d g lon lat [("long_name", "height"), ("units", "gpm")]
      let args := [china_map, coastlines, wspeed_field, wspeed_contour,
                   wind_field, wind_vector, gh_feild, gh_contour, legend, title, china_coastlines]
      ⟨some args, [args]⟩
    | none =>
      let args := [china_map, coastlines, wspeed_field, wspeed_contour,
                   wind_field, wind_vector, legend, title, china_coastlines]
      ⟨some args, [args]⟩

/-- The pressure contour levels of `draw_mslp`: the Python comprehension
`[940.+i*2.5 for i in range(51)]`. -/
def mslpContourLevelList : List ℚ :=
  (List.range 51).map (fun (i : ℕ) => 940 + (i : ℚ) * 2.5)

/-- The fixed colour list of `draw_mslp`'s pressure shading (dynamics.py
lines 530-536). -/
def mslpShadeColourList : List String := [
  "#FD90EB", "#EB78E5", "#EF53E0", "#F11FD3", "#F11FD3", "#A20E9B", "#880576", "#6D0258", "#5F0853",
  "#2A0DA8", "#2F1AA7", "#3D27B4", "#3F3CB6", "#6D5CDE", "#A28CF9", "#C1B3FF", "#DDDCFE", "#1861DB",
  "#206CE5", "#2484F4", "#52A5EE", "#91D4FF", "#B2EFF8", "#DEFEFF", "#C9FDBD", "#91F78B", "#53ED54",
  "#1DB31E", "#0CA104", "#FFF9A4", "#FFE27F", "#FAC235", "#FF9D04", "#FF5E00", "#F83302", "#E01304",
  "#A20200", "#603329", "#8C6653", "#B18981", "#DDC0B3", "#F8A3A2", "#DD6663", "#CA3C3B", "#A1241D",
  "#6C6F6D", "#8A8A8A", "#AAAAAA", "#C5C5C5", "#D5D5D5", "#E7E3E4"]

/-- Embedding of `draw_mslp` (dynamics.py lines 462-592): mean sea level
pressure shading with optional 500hPa height overlay.  Unlike the three
wind renderers it accepts no wind pair and no `skip_vector`, and builds no
vector field. -/
def drawMslp {α : Type} (mslp : Grid α) (lon lat : List α)
    (gh : Option (Grid α)) (map_region : Option (List ℚ)) (head_info : Option String)
    (date_obj : Option PyDateTime) (outfile : Option String) : DrawOutput α :=
  let mslp_field : MObj α :=
    .minput2d mslp lon lat [("long_name", "Sea level pressure"), ("units", "mb")]
  let china_map : MObj α := match map_region with
    | none => .getMmap "CHINA_CYLINDRICAL" none 5
    | some region => .getMmap "CHINA_REGION_CYLINDRICAL" (some region) 5
  let coastlines : MObj α := .getMcoast "COAST_FILL"
  let china_coastlines : MObj α := .getMcoast "PROVINCE"
  let gh_contour : MObj α := .mcont [
    ("legend", .s "off"),
    ("contour_level_selection_type", .s "interval"),
    ("contour_interval", .n 20),
    ("contour_reference_level", .n 5880),
    ("contour_line_colour", .s "black"),
    ("contour_line_thickness", .n 1.5),
    ("contour_label", .s "on"),
    ("contour_label_height", .n 0.5),
    ("contour_highlight_colour", .s "black"),
    ("contour_highlight_thickness", .n 3)]
  let mslp_contour : MObj α := .mcont [
    ("legend", .s "on"),
    ("contour_shade", .s "on"),
    ("contour_hilo", .s "on"),
    ("contour_hilo_height", .n 0.6),
    ("contour_hi_colour", .s "blue"),
    ("contour_lo_colour", .s "red"),
    ("contour_hilo_window_size", .n 5),
    ("contour", .s "off"),
    ("contour_label", .s "off"),
    ("contour_shade_method", .s "area_fill"),
    ("contour_level_selection_type", .s "level_list"),
    ("contour_level_list", .ns mslpContourLevelList),
    ("contour_shade_colour_method", .s "list"),
    ("contour_shade_colour_list", .ss mslpShadeColourList)]
  let legend : MObj α := .mlegend [
    ("legend", .s "on"),
    ("legend_text_colour", .s "black"),
    ("legend_box_mode", .s "legend_box_mode"),
    ("legend_automatic_position", .s "right"),
    ("legend_border", .s "off"),
    ("legend_border_colour", .s "black"),
    ("legend_box_blanking", .s "on"),
    ("legend_display_type", .s "continuous"),
    ("legend_title", .s "on"),
    ("legend_title_text", .s "Pressure"),
    ("legend_label_frequency", .n 2),
    ("legend_text_font_size", .s "0.5")]
  let text_lines : List String :=
    (match head_info with
      | some h => ["<font size='1'>" ++ h ++ "</font>"]
      | none => ["<font size='1'>Mean sea level pressure[mb] and 500hPa Height[gpm]</font>"]) ++
    (match date_obj with
      | some d => ["<font size='0.8' colour='red'>" ++ strftimeYmdHM_UTC d ++ "</font>"]
      | none => [])
  let title : MObj α := .mtext text_lines [
    ("text_justification", .s "left"),
    ("text_font_size", .n 0.6),
    ("text_mode", .s "title"),
    ("text_colour", .s "charcoal")]
  match outfile with
  | some f =>
    let out : MObj α := .output ["png"] "off" out_png_width f
    match gh with
    | some g =>
      let gh_feild : MObj α := .minput2d g lon lat [("long_name", "height"), ("units", "gpm")]
      ⟨none, [[out, china_map, coastlines, mslp_field, mslp_contour,
               gh_feild, gh_contour, legend, title, china_coastlines]]⟩
    | none =>
      ⟨none, [[out, china_map, coastlines, mslp_field, mslp_contour,
               legend, title, china_coastlines]]⟩
  | none =>
    match gh with
    | some g =>
      let gh_feild : MObj α := .minput2d g lon lat [("long_name", "height"), ("units", "gpm")]
      let args := [china_map, coastlines, mslp_field, mslp_contour,
                   gh_feild, gh_contour, legend, title, china_coastlines]
      ⟨some args, [args]⟩
    | none =>
      let args := [china_map, coastlines, mslp_field, mslp_contour,
                   legend, title, china_coastlines]
      ⟨some args, [args]⟩

/-- The argument list of the one render call a draw invocation issues. -/
def theCall {α : Type} (o : DrawOutput α) : List (MObj α) :=
  o.calls.headD []

/-- The decimation strides of the vector-field objects in the render call. -/
def vectorSkips {α : Type} (o : DrawOutput α) : List ℕ :=
  (theCall o).filterMap fun x => match x with
    | .minput2dVector _ _ _ _ s => some s
    | _ => none

/-- The file names of the PNG output targets in the render call. -/
def pngTargets {α : Type} (o : DrawOutput α) : List String :=
  (theCall o).filterMap fun x => match x with
    | .output formats _ _ nm => if "png" ∈ formats then some nm else none
    | _ => none

/-- The data grids of the wind-speed fields in the render call. -/
def speedGrids {α : Type} (o : DrawOutput α) : List (Grid α) :=
  (theCall o).filterMap fun x => match x with
    | .minput2d data _ _ attrs =>
        if ("long_name", "Wind Speed") ∈ attrs then some data else none
    | _ => none

/-- The text-line blocks of the title objects in the render call. -/
def titleBlocks {α : Type} (o : DrawOutput α) : List (List String) :=
  (theCall o).filterMap fun x => match x with
    | .mtext lines _ => some lines
    | _ => none

/-- The text lines of the render call's (single) title object. -/
def titleOf {α : Type} (o : DrawOutput α) : List String :=
  (titleBlocks o).headD []

/-- The explicit contour level lists among the render call's contour-style
objects. -/
def contourLevelLists {α : Type} (o : DrawOutput α) : List (List ℚ) :=
  (theCall o).filterMap fun x => match x with
    | .mcont kwargs => (kwargs.lookup "contour_level_list").bind fun v => match v with
        | .ns l => some l
        | _ => none
    | _ => none

/-- The explicit shading colour lists among the render call's contour-style
objects. -/
def shadeColourLists {α : Type} (o : DrawOutput α) : List (List String) :=
  (theCall o).filterMap fun x => match x with
    | .mcont kwargs => (kwargs.lookup "contour_shade_colour_list").bind fun v => match v with
        | .ss l => some l
        | _ => none
    | _ => none

/-- Auxiliary: the derived speed grid `np.sqrt(u*u + v*v)` equals the
elementwise `sqrt(a² + b²)` grid. -/
lemma gridMap_sqrt_mul_self (u v : Grid ℝ) :
    gridMap Real.sqrt (gridMap2 (fun a b : ℝ => a * a + b * b) u v)
      = gridMap2 (fun a b => Real.sqrt (a ^ 2 + b ^ 2)) u v := by
  simp only [gridMap, gridMap2, List.map_zipWith]
  congr 1
  funext r s
  congr 1
  funext a b
  rw [pow_two, pow_two]

/-- Auxiliary: `⌈(360 : ℚ) / 70⌉₊ = 6`. -/
lemma ceil_360_div_70 : (⌈((360 : ℕ) : ℚ) / 70⌉₊) = 6 := by
  rw [Nat.ceil_eq_iff (by norm_num)]
  norm_num

/-- Auxiliary: `⌈(181 : ℚ) / 35⌉₊ = 6`. -/
lemma ceil_181_div_35 : (⌈((181 : ℕ) : ℚ) / 35⌉₊) = 6 := by
  rw [Nat.ceil_eq_iff (by norm_num)]
  norm_num

/-- C1: in each of `draw_wind_upper`, `draw_wind_high` and `draw_vort_high`,
when `skip_vector` is not supplied the stride handed to the vector-field
constructor is `max ⌈nlon/70⌉ ⌈nlat/35⌉` where `nlon`, `nlat` are the
lengths of the `lon` and `lat` arrays; in particular, for `nlon = 360` and
`nlat = 181` the stride is `6`. -/
theorem claim1_default_stride_is_ceil_max {α : Type} [Mul α] [Add α] (sqrt : α → α)
    (uwind vwind vort : Grid α) (lon lat : List α) (gh : Option (Grid α))
    (map_region : Option (List ℚ)) (head_info : Option String)
    (date_obj : Option PyDateTime) (outfile : Option String) :
    vectorSkips (drawWindUpper sqrt uwind vwind lon lat gh none map_region head_info date_obj outfile)
      = [max (⌈(lon.length : ℚ) / 70⌉₊) (⌈(lat.length : ℚ) / 35⌉₊)]
    ∧ vectorSkips (drawWindHigh sqrt uwind vwind lon lat gh none map_region head_info date_obj outfile)
      = [max (⌈(lon.length : ℚ) / 70⌉₊) (⌈(lat.length : ℚ) / 35⌉₊)]
    ∧ vectorSkips (drawVortHigh sqrt uwind vwind vort lon lat gh none map_region head_info date_obj outfile)
      = [max (⌈(lon.length : ℚ) / 70⌉₊) (⌈(lat.length : ℚ) / 35⌉₊)]
    ∧ vectorSkips (drawWindUpper (fun q : ℚ => q) [] [] (List.replicate 360 0)
        (List.replicate 181 0) none none none none none none) = [6]
    ∧ vectorSkips (drawWindHigh (fun q : ℚ => q) [] [] (List.replicate 360 0)
        (List.replicate 181 0) none none none none none none) = [6]
    ∧ vectorSkips (drawVortHigh (fun q : ℚ => q) [] [] [] (List.replicate 360 0)
        (List.replicate 181 0) none none none none none none) = [6] := by
  have h6 : [max (⌈((List.replicate 360 (0:ℚ)).length : ℚ) / 70⌉₊)
      (⌈((List.replicate 181 (0:ℚ)).length : ℚ) / 35⌉₊)] = [6] := by
    rw [List.length_replicate, List.length_replicate, ceil_360_div_70, ceil_181_div_35, max_self]
  refine ⟨?_, ?_, ?_, ?_, ?_, ?_⟩
  · cases outfile <;> cases gh <;> cases map_region <;> rfl
  · cases outfile <;> cases gh <;> cases map_region <;> rfl
  · cases outfile <;> cases gh <;> cases map_region <;> rfl
  · exact h6
  · exact h6
  · exact h6

/-- C2: supplying a height-overlay grid `gh` to any of the four renderers
adds exactly two adjacent arguments to the render call — the height field
object followed by the height contour-style object — at a fixed position
(directly after the wind-vector object for the wind renderers, directly
after the pressure contour style for `draw_mslp`), the other arguments and
their order unchanged. -/
theorem claim2_gh_overlay_inserts_two_args {α : Type} [Mul α] [Add α] (sqrt : α → α)
    (uwind vwind vort mslp g : Grid α) (lon lat : List α) (skip_vector : Option ℕ)
    (map_region : Option (List ℚ)) (head_info : Option String)
    (date_obj : Option PyDateTime) (outfile : Option String) :
    theCall (drawWindUpper sqrt uwind vwind lon lat (some g) skip_vector map_region head_info date_obj outfile)
      = (theCall (drawWindUpper sqrt uwind vwind lon lat none skip_vector map_region head_info date_obj outfile)).take
          (if outfile.isSome then 7 else 6)
        ++ [MObj.minput2d g lon lat [("long_name", "height"), ("units", "gpm")],
            MObj.mcont [
              ("legend", .s "off"),
              ("contour_level_selection_type", .s "interval"),
              ("contour_interval", .n 50),
              ("contour_line_colour", .s "black"),
              ("contour_line_thickness", .n 1),
              ("contour_label", .s "on"),
              ("contour_label_height", .n 0.5),
              ("contour_highlight_colour", .s "black"),
              ("contour_highlight_thickness", .n 2)]]
        ++ (theCall (drawWindUpper sqrt uwind vwind lon lat none skip_vector map_region head_info date_obj outfile)).drop
          (if outfile.isSome then 7 else 6)
    ∧ theCall (drawWindHigh sqrt uwind vwind lon lat (some g) skip_vector map_region head_info date_obj outfile)
      = (theCall (drawWindHigh sqrt uwind vwind lon lat none skip_vector map_region head_info date_obj outfile)).take
          (if outfile.isSome then 7 else 6)
        ++ [MObj.minput2d g lon lat [("long_name", "height"), ("units", "gpm")],
            MObj.mcont [
              ("legend", .s "off"),
              ("contour_level_selection_type", .s "interval"),
              ("contour_interval", .n 20),
              ("contour_reference_level", .n 5880),
              ("contour_line_colour", .s "black"),
              ("contour_line_thickness", .n 1.5),
              ("contour_label", .s "on"),
              ("contour_label_height", .n 0.5),
              ("contour_highlight_colour", .s "black"),
              ("contour_highlight_thickness", .n 3)]]
        ++ (theCall (drawWindHigh sqrt uwind vwind lon lat none skip_vector map_region head_info date_obj outfile)).drop
          (if outfile.isSome then 7 else 6)
    ∧ theCall (drawVortHigh sqrt uwind vwind vort lon lat (some g) skip_vector map_region head_info date_obj outfile)
      = (theCall (drawVortHigh sqrt uwind vwind vort lon lat none skip_vector map_region head_info date_obj outfile)).take
          (if outfile.isSome then 7 else 6)
        ++ [MObj.minput2d g lon lat [("long_name", "height"), ("units", "gpm")],
            MObj.mcont [
              ("legend", .s "off"),
              ("contour_level_selection_type", .s "interval"),
              ("contour_interval", .n 20),
              ("contour_reference_level", .n 5880),
              ("contour_line_colour", .s "black"),
              ("contour_line_thickness", .n 1.5),
              ("contour_label", .s "on"),
              ("contour_label_height", .n 0.5),
              ("contour_highlight_colour", .s "black"),
              ("contour_highlight_thickness", .n 3)]]
        ++ (theCall (drawVortHigh sqrt uwind vwind vort lon lat none skip_vector map_region head_info date_obj outfile)).drop
          (if outfile.isSome then 7 else 6)
    ∧ theCall (drawMslp mslp lon lat (some g) map_region head_info date_obj outfile)
      = (theCall (drawMslp mslp lon lat none map_region head_info date_obj outfile)).take
          (if outfile.isSome then 5 else 4)
        ++ [MObj.minput2d g lon lat [("long_name", "height"), ("units", "gpm")],
            MObj.mcont [
              ("legend", .s "off"),
              ("contour_level_selection_type", .s "interval"),
              ("contour_interval", .n 20),
              ("contour_reference_level", .n 5880),
              ("contour_line_colour", .s "black"),
              ("contour_line_thickness", .n 1.5),
              ("contour_label", .s "on"),
              ("contour_label_height", .n 0.5),
              ("contour_highlight_colour", .s "black"),
              ("contour_highlight_thickness", .n 3)]]
        ++ (theCall (drawMslp mslp lon lat none map_region head_info date_obj outfile)).drop
          (if outfile.isSome then 5 else 4) := by
  refine ⟨?_, ?_, ?_, ?_⟩ <;> cases outfile <;> rfl

/-- C3: for each of the four renderers, supplying `outfile` makes the
function return `None` and issue exactly one render call whose argument
list carries one PNG output target naming that path; omitting `outfile`
makes the function return the handle produced by its single render call,
whose argument list carries no output target at all. -/
theorem claim3_outfile_switches_write_and_return {α : Type} [Mul α] [Add α] (sqrt : α → α)
    (uwind vwind vort mslp : Grid α) (lon lat : List α) (gh : Option (Grid α))
    (skip_vector : Option ℕ) (map_region : Option (List ℚ)) (head_info : Option String)
    (date_obj : Option PyDateTime) (f : String) :
    ((drawWindUpper sqrt uwind vwind lon lat gh skip_vector map_region head_info date_obj (some f)).ret = none
      ∧ (drawWindUpper sqrt uwind vwind lon lat gh skip_vector map_region head_info date_obj (some f)).calls.length = 1
      ∧ pngTargets (drawWindUpper sqrt uwind vwind lon lat gh skip_vector map_region head_info date_obj (some f)) = [f]
      ∧ (drawWindUpper sqrt uwind vwind lon lat gh skip_vector map_region head_info date_obj none).ret
          = some (theCall (drawWindUpper sqrt uwind vwind lon lat gh skip_vector map_region head_info date_obj none))
      ∧ (drawWindUpper sqrt uwind vwind lon lat gh skip_vector map_region head_info date_obj none).calls.length = 1
      ∧ pngTargets (drawWindUpper sqrt uwind vwind lon lat gh skip_vector map_region head_info date_obj none) = [])
    ∧ ((drawWindHigh sqrt uwind vwind lon lat gh skip_vector map_region head_info date_obj (some f)).ret = none
      ∧ (drawWindHigh sqrt uwind vwind lon lat gh skip_vector map_region head_info date_obj (some f)).calls.length = 1
      ∧ pngTargets (drawWindHigh sqrt uwind vwind lon lat gh skip_vector map_region head_info date_obj (some f)) = [f]
      ∧ (drawWindHigh sqrt uwind vwind lon lat gh skip_vector map_region head_info date_obj none).ret
          = some (theCall (drawWindHigh sqrt uwind vwind lon lat gh skip_vector map_region head_info date_obj none))
      ∧ (drawWindHigh sqrt uwind vwind lon lat gh skip_vector map_region head_info date_obj none).calls.length = 1
      ∧ pngTargets (drawWindHigh sqrt uwind vwind lon lat gh skip_vector map_region head_info date_obj none) = [])
    ∧ ((drawVortHigh sqrt uwind vwind vort lon lat gh skip_vector map_region head_info date_obj (some f)).ret = none
      ∧ (drawVortHigh sqrt uwind vwind vort lon lat gh skip_vector map_region head_info date_obj (some f)).calls.length = 1
      ∧ pngTargets (drawVortHigh sqrt uwind vwind vort lon lat gh skip_vector map_region head_info date_obj (some f)) = [f]
      ∧ (drawVortHigh sqrt uwind vwind vort lon lat gh skip_vector map_region head_info date_obj none).ret
          = some (theCall (drawVortHigh sqrt uwind vwind vort lon lat gh skip_vector map_region head_info date_obj none))
      ∧ (drawVortHigh sqrt uwind vwind vort lon lat gh skip_vector map_region head_info date_obj none).calls.length = 1
      ∧ pngTargets (drawVortHigh sqrt uwind vwind vort lon lat gh skip_vector map_region head_info date_obj none) = [])
    ∧ ((drawMslp mslp lon lat gh map_region head_info date_obj (some f)).ret = none
      ∧ (drawMslp mslp lon lat gh map_region head_info date_obj (some f)).calls.length = 1
      ∧ pngTargets (drawMslp mslp lon lat gh map_region head_info date_obj (some f)) = [f]
      ∧ (drawMslp mslp lon lat gh map_region head_info date_obj none).ret
          = some (theCall (drawMslp mslp lon lat gh map_region head_info date_obj none))
      ∧ (drawMslp mslp lon lat gh map_region head_info date_obj none).calls.length = 1
      ∧ pngTargets (drawMslp mslp lon lat gh map_region head_info date_obj none) = []) := by
  refine ⟨⟨?_, ?_, ?_, ?_, ?_, ?_⟩, ⟨?_, ?_, ?_, ?_, ?_, ?_⟩,
    ⟨?_, ?_, ?_, ?_, ?_, ?_⟩, ⟨?_, ?_, ?_, ?_, ?_, ?_⟩⟩ <;>
    cases gh <;> cases map_region <;> rfl

/-- C4: over the reals (the spec reads the floating-point arithmetic as
exact), the wind-speed shading grid each wind renderer builds from
`np.sqrt(uwind*uwind + vwind*vwind)` is the elementwise `sqrt(a² + b²)` of
the two components — which is the Euclidean norm of the component pair, as
the final conjunct states against `EuclideanSpace ℝ (Fin 2)`. -/
theorem claim4_speed_field_is_euclidean_norm (uwind vwind vort : Grid ℝ)
    (lon lat : List ℝ) (gh : Option (Grid ℝ)) (skip_vector : Option ℕ)
    (map_region : Option (List ℚ)) (head_info : Option String)
    (date_obj : Option PyDateTime) (outfile : Option String) :
    speedGrids (drawWindUpper Real.sqrt uwind vwind lon lat gh skip_vector map_region head_info date_obj outfile)
      = [gridMap2 (fun a b => Real.sqrt (a ^ 2 + b ^ 2)) uwind vwind]
    ∧ speedGrids (drawWindHigh Real.sqrt uwind vwind lon lat gh skip_vector map_region head_info date_obj outfile)
      = [gridMap2 (fun a b => Real.sqrt (a ^ 2 + b ^ 2)) uwind vwind]
    ∧ speedGrids (drawVortHigh Real.sqrt uwind vwind vort lon lat gh skip_vector map_region head_info date_obj outfile)
      = [gridMap2 (fun a b => Real.sqrt (a ^ 2 + b ^ 2)) uwind vwind]
    ∧ ∀ a b : ℝ, Real.sqrt (a ^ 2 + b ^ 2)
      = ‖(WithLp.equiv 2 (Fin 2 → ℝ)).symm ![a, b]‖ := by
  have key := gridMap_sqrt_mul_self uwind vwind
  refine ⟨?_, ?_, ?_, ?_⟩
  · cases outfile <;> cases gh <;> cases map_region <;> exact congrArg (fun z => [z]) key
  · cases outfile <;> cases gh <;> cases map_region <;> exact congrArg (fun z => [z]) key
  · cases outfile <;> cases gh <;> cases map_region <;> exact congrArg (fun z => [z]) key
  · intro a b
    rw [EuclideanSpace.norm_eq]
    congr 1
    rw [Fin.sum_univ_two]
    simp [WithLp.equiv_symm_pi_apply, Real.norm_eq_abs, sq_abs]

/-- C5: in every renderer the first title line is the caller's `head_info`
string, wrapped in the fixed font markup, when one is supplied, and the
product-specific hard-coded default caption otherwise. -/
theorem claim5_caption_default_or_verbatim {α : Type} [Mul α] [Add α] (sqrt : α → α)
    (uwind vwind vort mslp : Grid α) (lon lat : List α) (gh : Option (Grid α))
    (skip_vector : Option ℕ) (map_region : Option (List ℚ)) (h : String)
    (date_obj : Option PyDateTime) (outfile : Option String) :
    (titleOf (drawWindUpper sqrt uwind vwind lon lat gh skip_vector map_region (some h) date_obj outfile)).headD ""
      = "<font size='1'>" ++ h ++ "</font>"
    ∧ (titleOf (drawWindUpper sqrt uwind vwind lon lat gh skip_vector map_region none date_obj outfile)).headD ""
      = "<font size='1'>200hPa Wind[m/s] and Height[gpm]</font>"
    ∧ (titleOf (drawWindHigh sqrt uwind vwind lon lat gh skip_vector map_region (some h) date_obj outfile)).headD ""
      = "<font size='1'>" ++ h ++ "</font>"
    ∧ (titleOf (drawWindHigh sqrt uwind vwind lon lat gh skip_vector map_region none date_obj outfile)).headD ""
      = "<font size='1'>850hPa Wind[m/s] and 500hPa Height[gpm]</font>"
    ∧ (titleOf (drawVortHigh sqrt uwind vwind vort lon lat gh skip_vector map_region (some h) date_obj outfile)).headD ""
      = "<font size='1'>" ++ h ++ "</font>"
    ∧ (titleOf (drawVortHigh sqrt uwind vwind vort lon lat gh skip_vector map_region none date_obj outfile)).headD ""
      = "<font size='1'>850hPa Wind[m/s] and 500hPa Height[gpm]</font>"
    ∧ (titleOf (drawMslp mslp lon lat gh map_region (some h) date_obj outfile)).headD ""
      = "<font size='1'>" ++ h ++ "</font>"
    ∧ (titleOf (drawMslp mslp lon lat gh map_region none date_obj outfile)).headD ""
      = "<font size='1'>Mean sea level pressure[mb] and 500hPa Height[gpm]</font>" := by
  refine ⟨?_, ?_, ?_, ?_, ?_, ?_, ?_, ?_⟩ <;>
    cases outfile <;> cases gh <;> cases map_region <;> rfl

/-- C6: in every renderer a supplied `date_obj` yields a title block of
exactly two lines whose second line is the timestamp rendered with
strftime's `%Y/%m/%d %H:%M(UTC)` inside the fixed red font markup, while an
omitted `date_obj` yields exactly one line; the last conjunct exhibits the
format on 2016-07-19 12:00. -/
theorem claim6_timestamp_second_line {α : Type} [Mul α] [Add α] (sqrt : α → α)
    (uwind vwind vort mslp : Grid α) (lon lat : List α) (gh : Option (Grid α))
    (skip_vector : Option ℕ) (map_region : Option (List ℚ)) (head_info : Option String)
    (d : PyDateTime) (outfile : Option String) :
    (titleOf (drawWindUpper sqrt uwind vwind lon lat gh skip_vector map_region head_info (some d) outfile)).length = 2
    ∧ (titleOf (drawWindUpper sqrt uwind vwind lon lat gh skip_vector map_region head_info (some d) outfile)).getD 1 ""
      = "<font size='0.8' colour='red'>" ++ strftimeYmdHM_UTC d ++ "</font>"
    ∧ (titleOf (drawWindUpper sqrt uwind vwind lon lat gh skip_vector map_region head_info none outfile)).length = 1
    ∧ (titleOf (drawWindHigh sqrt uwind vwind lon lat gh skip_vector map_region head_info (some d) outfile)).length = 2
    ∧ (titleOf (drawWindHigh sqrt uwind vwind lon lat gh skip_vector map_region head_info (some d) outfile)).getD 1 ""
      = "<font size='0.8' colour='red'>" ++ strftimeYmdHM_UTC d ++ "</font>"
    ∧ (titleOf (drawWindHigh sqrt uwind vwind lon lat gh skip_vector map_region head_info none outfile)).length = 1
    ∧ (titleOf (drawVortHigh sqrt uwind vwind vort lon lat gh skip_vector map_region head_info (some d) outfile)).length = 2
    ∧ (titleOf (drawVortHigh sqrt uwind vwind vort lon lat gh skip_vector map_region head_info (some d) outfile)).getD 1 ""
      = "<font size='0.8' colour='red'>" ++ strftimeYmdHM_UTC d ++ "</font>"
    ∧ (titleOf (drawVortHigh sqrt uwind vwind vort lon lat gh skip_vector map_region head_info none outfile)).length = 1
    ∧ (titleOf (drawMslp mslp lon lat gh map_region head_info (some d) outfile)).length = 2
    ∧ (titleOf (drawMslp mslp lon lat gh map_region head_info (some d) outfile)).getD 1 ""
      = "<font size='0.8' colour='red'>" ++ strftimeYmdHM_UTC d ++ "</font>"
    ∧ (titleOf (drawMslp mslp lon lat gh map_region head_info none outfile)).length = 1
    ∧ strftimeYmdHM_UTC ⟨2016, 7, 19, 12, 0⟩ = "2016/07/19 12:00(UTC)" := by
  refine ⟨?_, ?_, ?_, ?_, ?_, ?_, ?_, ?_, ?_, ?_, ?_, ?_, rfl⟩ <;>
    cases outfile <;> cases gh <;> cases map_region <;> cases head_info <;> rfl

/-- C7 counterexample: `draw_mslp` does not perform step (1) of the
template.  On a 1°-resolution global grid (360 longitudes, 181 latitudes) —
the very input on which the three wind renderers derive a stride of 6 — the
render call `draw_mslp` issues contains no vector-field object at all, so
no vector-thinning stride is derived or passed: `draw_mslp` takes no
`skip_vector` parameter and builds no vector field. -/
theorem claim7_counterexample_mslp_derives_no_stride :
    vectorSkips (drawMslp (List.replicate 181 (List.replicate 360 (1000 : ℚ)))
      (List.replicate 360 0) (List.replicate 181 0) none none none none none) = [] := rfl

/-- C7 amended: the three wind renderers `draw_wind_upper`,
`draw_wind_high` and `draw_vort_high` perform step (1), deriving the
default vector-thinning stride from the grid dimensions when none is
supplied, while `draw_mslp` accepts no stride parameter and derives none —
its render call never carries a vector field. -/
theorem claim7_amended_only_wind_renderers_derive_stride {α : Type} [Mul α] [Add α] (sqrt : α → α)
    (uwind vwind vort mslp : Grid α) (lon lat : List α) (gh : Option (Grid α))
    (map_region : Option (List ℚ)) (head_info : Option String)
    (date_obj : Option PyDateTime) (outfile : Option String) :
    vectorSkips (drawWindUpper sqrt uwind vwind lon lat gh none map_region head_info date_obj outfile)
      = [max (⌈(lon.length : ℚ) / 70⌉₊) (⌈(lat.length : ℚ) / 35⌉₊)]
    ∧ vectorSkips (drawWindHigh sqrt uwind vwind lon lat gh none map_region head_info date_obj outfile)
      = [max (⌈(lon.length : ℚ) / 70⌉₊) (⌈(lat.length : ℚ) / 35⌉₊)]
    ∧ vectorSkips (drawVortHigh sqrt uwind vwind vort lon lat gh none map_region head_info date_obj outfile)
      = [max (⌈(lon.length : ℚ) / 70⌉₊) (⌈(lat.length : ℚ) / 35⌉₊)]
    ∧ vectorSkips (drawMslp mslp lon lat gh map_region head_info date_obj outfile) = [] := by
  refine ⟨?_, ?_, ?_, ?_⟩ <;> cases outfile <;> cases gh <;> cases map_region <;> rfl

/-- C8: the `vort` argument of `draw_vort_high` is never read — two calls
differing only in `vort` produce identical render calls and identical
results. -/
theorem claim8_vort_never_read {α : Type} [Mul α] [Add α] (sqrt : α → α)
    (uwind vwind vort₁ vort₂ : Grid α) (lon lat : List α) (gh : Option (Grid α))
    (skip_vector : Option ℕ) (map_region : Option (List ℚ)) (head_info : Option String)
    (date_obj : Option PyDateTime) (outfile : Option String) :
    drawVortHigh sqrt uwind vwind vort₁ lon lat gh skip_vector map_region head_info date_obj outfile
      = drawVortHigh sqrt uwind vwind vort₂ lon lat gh skip_vector map_region head_info date_obj outfile :=
  rfl

/-- C9: the pressure contour style of `draw_mslp` is the unique
level-listed contour style of its render call; its level list has exactly
51 entries, the `i`-th being `940 + 2.5·i` mb, and it is paired with a
51-entry colour list. -/
theorem claim9_mslp_levels_51_bands {α : Type} (mslp : Grid α) (lon lat : List α)
    (gh : Option (Grid α)) (map_region : Option (List ℚ)) (head_info : Option String)
    (date_obj : Option PyDateTime) (outfile : Option String) :
    contourLevelLists (drawMslp mslp lon lat gh map_region head_info date_obj outfile)
      = [mslpContourLevelList]
    ∧ mslpContourLevelList.length = 51
    ∧ (∀ i ∈ List.range 51, mslpContourLevelList.getD i 0 = 940 + 2.5 * i)
    ∧ shadeColourLists (drawMslp mslp lon lat gh map_region head_info date_obj outfile)
      = [mslpShadeColourList]
    ∧ mslpShadeColourList.length = 51 := by
  refine ⟨?_, rfl, ?_, ?_, rfl⟩
  · cases outfile <;> cases gh <;> cases map_region <;> rfl
  · intro i hi
    rw [List.mem_range] at hi
    rw [mslpContourLevelList, List.getD_eq_getElem?_getD, List.getElem?_map,
      List.getElem?_range hi]
    simp
    ring
  · cases outfile <;> cases gh <;> cases map_region <;> rfl

/-- C9 witness: the theorem applied at a concrete call, with the pointwise
conjunct read off at band 17 (`940 + 2.5·17 = 982.5`). -/
theorem claim9_mslp_levels_51_bands_witness :
    contourLevelLists (drawMslp ([[1013]] : Grid ℚ) [110] [30] none none none none none)
      = [mslpContourLevelList]
    ∧ mslpContourLevelList.getD 17 0 = 940 + 2.5 * (17 : ℕ) :=
  ⟨(claim9_mslp_levels_51_bands ([[1013]] : Grid ℚ) [110] [30] none none none none none).1,
   (claim9_mslp_levels_51_bands ([[1013]] : Grid ℚ) [110] [30] none none none none none).2.2.1
     17 (by decide)⟩

/-- C10: `draw_vort_high` and `draw_wind_high` agree on all shared
arguments: for every input the former's field objects, style blocks, title
and render call coincide with the latter's — the two entry points are
extensionally equal on their common inputs. -/
theorem claim10_vort_high_equals_wind_high {α : Type} [Mul α] [Add α] (sqrt : α → α)
    (uwind vwind vort : Grid α) (lon lat : List α) (gh : Option (Grid α))
    (skip_vector : Option ℕ) (map_region : Option (List ℚ)) (head_info : Option String)
    (date_obj : Option PyDateTime) (outfile : Option String) :
    drawVortHigh sqrt uwind vwind vort lon lat gh skip_vector map_region head_info date_obj outfile
      = drawWindHigh sqrt uwind vwind lon lat gh skip_vector map_region head_info date_obj outfile :=
  rfl
